import Mathlib

/-!
Verification of the CSMS Google Drive folder-synchronization subsystem.

This file gives a shallow embedding, in Lean 4, of the parts of the
repository that manage the mirrored folder tree on Google Drive:

* `services/google_drive.py` — the `GoogleDriveService` class
  (`find_or_create_folder`, `create_nested_task_folder`,
  `upload_file_to_drive`, `copy_file`, `get_files_in_project`,
  `fetch_files_in_folder`);
* `services/drive_template_service.py` — the code-extraction scanner
  (`_scan_recursive`);
* `services/daftar_isi_service.py` — the table-of-contents scanner and
  regeneration pipeline (`_scan_folder_structure`,
  `_delete_existing_daftar_isi`, `generate_and_upload`).

The remote Drive store is modelled as an explicit state: a flat list of
nodes with parent pointers, plus a fresh-id counter and a set of folder
ids whose child-listing calls fail (to model remote errors).  Python
strings are modelled as Lean `String`; the string operations used by the
source (`split`, `join`, `upper`, `isalnum`, `isdigit`, prefix tests and
lexicographic comparison) are re-implemented over `List Char` so that
every definition evaluates by kernel reduction.  Python's lexicographic
string order coincides with code-point lexicographic order on the
character list.

One remote-API fact is taken from the specification of the external
service rather than from this repository (whose code only builds the
query string): a Drive query clause `name contains 'P '` performs prefix
matching on the file name, i.e. it selects names that start with
`P ++ " "`.  The query predicates below encode exactly that reading.
-/

/-- Split a character list at every occurrence of `sep`, mirroring
Python's `str.split(sep)` for a single-character separator: the result
is always non-empty, and empty pieces are kept. -/
def splitCh (sep : Char) : List Char → List (List Char)
  | [] => [[]]
  | c :: cs =>
    let r := splitCh sep cs
    if c = sep then [] :: r
    else
      match r with
      | [] => [[c]]
      | h :: t => (c :: h) :: t

/-- Python `s.split('.')` on a `String`. -/
def splitDot (s : String) : List String :=
  (splitCh '.' s.data).map String.mk

/-- Interleave the pieces with the separator character,
mirroring Python's `sep.join(pieces)` for a one-character separator. -/
def joinSep (sep : Char) : List (List Char) → List Char
  | [] => []
  | [x] => x
  | x :: y :: t => x ++ sep :: joinSep sep (y :: t)

/-- Python `'.'.join(parts)` on `String`s. -/
def joinDot (l : List String) : String :=
  String.mk (joinSep '.' (l.map String.data))

/-- Python `name.split(' ', 1)` (split at the first space only):
returns the text before the first space and the remainder after it
(empty when there is no space). -/
def splitFirstSpace (s : String) : String × String :=
  let rec go : List Char → List Char × List Char
    | [] => ([], [])
    | c :: cs => if c = ' ' then ([], cs) else
        let r := go cs
        (c :: r.1, r.2)
  let r := go s.data
  (String.mk r.1, String.mk r.2)

/-- Code-point lexicographic comparison of character lists; this is the
order Python uses to compare strings. -/
def charsLe : List Char → List Char → Bool
  | [], _ => true
  | _ :: _, [] => false
  | a :: as, b :: bs =>
    if a.toNat < b.toNat then true
    else if b.toNat < a.toNat then false
    else charsLe as bs

/-- Python `a <= b` on strings. -/
def strLe (a b : String) : Bool := charsLe a.data b.data

/-- Python `s.startswith(p)`. -/
def strStartsWith (p s : String) : Bool := List.isPrefixOf p.data s.data

/-- Python `s.upper()` (ASCII; all strings in the claims are ASCII). -/
def strUpper (s : String) : String := String.mk (s.data.map Char.toUpper)

/-- Python `any(c.isdigit() for c in s) and '.' in s`, the heuristic in
`_scan_recursive` for recognising a dotted task code. -/
def hasDigitDot (s : String) : Bool :=
  s.data.any Char.isDigit && s.data.any (fun c => c = '.')

/-- Title sanitizer from `create_nested_task_folder`
(`"".join(x for x in task_title if (x.isalnum() or x in "._- "))`). -/
def sanitizeTitle (t : String) : String :=
  String.mk (t.data.filter (fun c =>
    c.isAlphanum || (c = '.' || c = '_' || c = '-' || c = ' ')))

/-- Stable insertion of `x` into `l` with respect to the Boolean
comparison `le`: `x` goes before the first element it compares
less-or-equal to. -/
def insertLe {α : Type} (le : α → α → Bool) (x : α) : List α → List α
  | [] => [x]
  | y :: ys => if le x y then x :: y :: ys else y :: insertLe le x ys

/-- Stable insertion sort, the model of Python's stable `list.sort`. -/
def sortLe {α : Type} (le : α → α → Bool) : List α → List α
  | [] => []
  | x :: xs => insertLe le x (sortLe le xs)

/-- Node of the remote Drive store: an id, a display name, the id of
the parent folder, a folder/file flag (standing for the
`application/vnd.google-apps.folder` mime type), and the trash flag. -/
structure DFile where
  id : Nat
  name : String
  parent : Nat
  isFolder : Bool
  trashed : Bool
deriving DecidableEq, Repr

/-- State of the remote Drive store: the set of nodes, a counter
producing fresh ids for created nodes, and the ids of folders whose
child-listing remote call fails (raises) when attempted. -/
structure DriveState where
  files : List DFile
  nextId : Nat
  listFails : List Nat
deriving DecidableEq, Repr

/-- Local state of `GoogleDriveService`: the `enabled` flag (which in
the source also implies `self.service` is set), the configured root
folder id (`GOOGLE_DRIVE_FOLDER_ID`), and `folders_cache`.  The Python
cache is a dict keyed by the string `f"{parent_id}:{folder_name}"`;
since Drive ids contain no colon that key is in bijection with the pair
`(parent_id, folder_name)`, which is the key type used here. -/
structure GDService where
  enabled : Bool
  folder_id : Nat
  folders_cache : List ((Nat × String) × Nat)
deriving DecidableEq, Repr

/-- Dict lookup in `folders_cache`. -/
def cacheGet (c : List ((Nat × String) × Nat)) (k : Nat × String) : Option Nat :=
  (c.find? (fun e => e.1 = k)).map (·.2)

/-- Dict assignment `folders_cache[key] = v` (overwrite or append). -/
def cacheSet (c : List ((Nat × String) × Nat)) (k : Nat × String) (v : Nat) :
    List ((Nat × String) × Nat) :=
  match c with
  | [] => [(k, v)]
  | e :: rest => if e.1 = k then (k, v) :: rest else e :: cacheSet rest k v

/-- Predicate of the files-list query issued by `find_or_create_folder`.
With `ps = false` it is
`name='N' and 'P' in parents and mimeType=folder and trashed=false`;
with `ps = true` the name clause is
`(name = 'N' or name contains 'N ')`, where the Drive `contains`
clause on a name performs prefix matching (see the header note). -/
def folderQueryMatch (ps : Bool) (folder_name : String) (parent : Nat)
    (f : DFile) : Bool :=
  (if ps then f.name == folder_name || strStartsWith (folder_name ++ " ") f.name
   else f.name == folder_name)
  && f.parent == parent && f.isFolder && !f.trashed

/-- Sort comparison used on the query results:
`files.sort(key=lambda x: (x['name'] != folder_name, x['name']))`,
i.e. lexicographic on the pair (name-differs-from-target, name). -/
def sortKeyLe (folder_name : String) (a b : DFile) : Bool :=
  if (a.name == folder_name) = (b.name == folder_name) then strLe a.name b.name
  else a.name == folder_name

/-- Embedding of `GoogleDriveService.find_or_create_folder`
(`services/google_drive.py:117-175`).  Returns the resolved or created
folder id (`None` on failure), together with the updated service state
(cache) and Drive state.  A failing child-listing call on the parent
makes the whole body raise, which the source catches and turns into
`None` with nothing modified. -/
def find_or_create_folder (svc : GDService) (st : DriveState)
    (folder_name : String) (parentArg : Option Nat) (prefixSearch : Bool) :
    Option Nat × GDService × DriveState :=
  if !svc.enabled then (none, svc, st)
  else
    let parent_id := parentArg.getD svc.folder_id
    let cache_key := (parent_id, folder_name)
    match if prefixSearch then none else cacheGet svc.folders_cache cache_key with
    | some cached => (some cached, svc, st)
    | none =>
      if st.listFails.contains parent_id then (none, svc, st)
      else
        match sortLe (sortKeyLe folder_name)
            (st.files.filter (folderQueryMatch prefixSearch folder_name parent_id)) with
        | best :: _ =>
          let svc' :=
            if best.name == folder_name then
              { svc with folders_cache := cacheSet svc.folders_cache cache_key best.id }
            else svc
          (some best.id, svc', st)
        | [] =>
          let newId := st.nextId
          let st' : DriveState :=
            { st with
              files := st.files ++ [⟨newId, folder_name, parent_id, true, false⟩],
              nextId := st.nextId + 1 }
          let svc' :=
            { svc with folders_cache := cacheSet svc.folders_cache cache_key newId }
          (some newId, svc', st')

/-- Path segments resolved by the loop of `create_nested_task_folder`
(`services/google_drive.py:216-239`), one per iteration
`i in range(1, len(parts))`: the folder name passed to
`find_or_create_folder` and the `prefix_search` flag used for it.
Intermediate prefixes of the code are resolved with
`prefix_search=True`; the final segment (the full code, with the
sanitized title appended when a title is supplied) is resolved with the
default `prefix_search=False`. -/
def segmentSpecs (task_code task_title : String) : List (String × Bool) :=
  let parts := splitDot task_code
  (List.range' 1 (parts.length - 1)).map (fun i =>
    let folder_code := joinDot (parts.take (i + 1))
    let is_final := folder_code == task_code
    if is_final then
      (if task_title == "" then folder_code
       else folder_code ++ " " ++ sanitizeTitle task_title, false)
    else (folder_code, true))

/-- Fold of `find_or_create_folder` over the loop iterations of
`create_nested_task_folder`: resolve each segment under the previously
resolved folder, stopping with `None` when a segment fails. -/
def resolveSegments (svc : GDService) (st : DriveState) (cur : Nat) :
    List (String × Bool) → Option Nat × GDService × DriveState
  | [] => (some cur, svc, st)
  | (nm, pf) :: rest =>
    match find_or_create_folder svc st nm (some cur) pf with
    | (none, svc', st') => (none, svc', st')
    | (some nid, svc', st') => resolveSegments svc' st' nid rest

/-- Embedding of `GoogleDriveService.create_nested_task_folder`
(`services/google_drive.py:177-243`): resolve the project folder under
the configured root, then `Element <first part>` under it (exact
match), then the loop over the remaining dotted prefixes as given by
`segmentSpecs`.  A failed element-folder resolution falls back to the
project folder id; any later failure yields `None`. -/
def create_nested_task_folder (svc : GDService) (st : DriveState)
    (project_name task_code task_title : String) :
    Option Nat × GDService × DriveState :=
  if !svc.enabled then (none, svc, st)
  else if task_code == "" then find_or_create_folder svc st project_name none false
  else
    match find_or_create_folder svc st project_name none false with
    | (none, svc', st') => (none, svc', st')
    | (some project_folder_id, svc', st') =>
      let parts := splitDot task_code
      if parts.isEmpty then (some project_folder_id, svc', st')
      else
        let element_folder_name := "Element " ++ parts.headD ""
        match find_or_create_folder svc' st' element_folder_name
            (some project_folder_id) false with
        | (none, svc'', st'') => (some project_folder_id, svc'', st'')
        | (some element_id, svc'', st'') =>
          resolveSegments svc'' st'' element_id (segmentSpecs task_code task_title)

/-- Embedding of `GoogleDriveService.fetch_files_in_folder`
(`services/google_drive.py:604-619`): list all untrashed children of a
folder.  When the service is disabled, or the remote listing call for
this folder fails, the source returns the empty list. -/
def fetch_files_in_folder (svc : GDService) (st : DriveState)
    (folder_id : Nat) : List DFile :=
  if !svc.enabled then []
  else if st.listFails.contains folder_id then []
  else st.files.filter (fun f => f.parent == folder_id && !f.trashed)

/-- Result dictionary of `upload_file_to_drive`. -/
structure UploadResult where
  success : Bool
  file_id : Option Nat
  folder_path : Option String
  project_folder_id : Option Nat
  error : Option String
deriving DecidableEq, Repr

/-- Embedding of `GoogleDriveService.upload_file_to_drive`
(`services/google_drive.py:245-298`).  The uploaded bytes are
irrelevant to the folder tree and are not modelled; the upload itself
is modelled as always succeeding once a target folder id exists. -/
def upload_file_to_drive (svc : GDService) (st : DriveState)
    (filename project_name : String) (task_code : Option String)
    (task_title : String) : UploadResult × GDService × DriveState :=
  if !svc.enabled then
    (⟨false, none, none, none,
      some "Google Drive service not enabled or not initialized"⟩, svc, st)
  else
    match find_or_create_folder svc st project_name none false with
    | (pfid?, svc1, st1) =>
      let next :=
        match task_code with
        | some code =>
          if code == "" then (pfid?, project_name, svc1, st1)
          else
            match create_nested_task_folder svc1 st1 project_name code task_title with
            | (t?, svc2, st2) =>
              let safe_title := if task_title == "" then "" else sanitizeTitle task_title
              let folder_suffix := if safe_title == "" then "" else " " ++ safe_title
              (t?, project_name ++ "/Element " ++ (splitDot code).headD "" ++ "/" ++
                 code ++ folder_suffix, svc2, st2)
        | none => (pfid?, project_name, svc1, st1)
      match next with
      | (none, _, svc2, st2) =>
        (⟨false, none, none, none,
          some "Could not create or find target folder in Drive"⟩, svc2, st2)
      | (some target_id, folder_path, svc2, st2) =>
        let fid := st2.nextId
        (⟨true, some fid, some folder_path, pfid?, none⟩, svc2,
         { st2 with
           files := st2.files ++ [⟨fid, filename, target_id, false, false⟩],
           nextId := st2.nextId + 1 })

/-- Embedding of `GoogleDriveService.copy_file`
(`services/google_drive.py:557-587`).  With `skip_if_exists` and a new
name, an existing untrashed child of the destination with that name is
returned unchanged; otherwise the source node is copied under the
destination (the copy keeps the source name unless a new name is
given).  A missing source id makes the remote copy call raise, which
the source catches and turns into `None`. -/
def copy_file (svc : GDService) (st : DriveState) (file_id parent_id : Nat)
    (new_name : Option String) (skip_if_exists : Bool) :
    Option Nat × DriveState :=
  if !svc.enabled then (none, st)
  else
    match
      if skip_if_exists then
        match new_name with
        | some nm =>
          (st.files.filter (fun f =>
            f.name == nm && f.parent == parent_id && !f.trashed)).head?
        | none => none
      else none
    with
    | some existing => (some existing.id, st)
    | none =>
      match st.files.find? (fun f => f.id == file_id) with
      | none => (none, st)
      | some src =>
        let newId := st.nextId
        (some newId,
         { st with
           files := st.files ++
             [⟨newId, new_name.getD src.name, parent_id, src.isFolder, false⟩],
           nextId := st.nextId + 1 })

/-- Embedding of `GoogleDriveService.get_files_in_project`
(`services/google_drive.py:424-440`): resolve the project folder, then
list its untrashed non-folder children; a failing listing call yields
the empty list. -/
def get_files_in_project (svc : GDService) (st : DriveState)
    (project_name : String) : List DFile × GDService × DriveState :=
  if !svc.enabled then ([], svc, st)
  else
    match find_or_create_folder svc st project_name none false with
    | (none, svc', st') => ([], svc', st')
    | (some pfid, svc', st') =>
      if st'.listFails.contains pfid then ([], svc', st')
      else
        (st'.files.filter (fun f => f.parent == pfid && !f.trashed && !f.isFolder),
         svc', st')

/-- Task tuple appended to `tasks_list` by `_scan_recursive`. -/
structure TaskEntry where
  code : String
  title : String
  category : String
deriving DecidableEq, Repr

/-- Category lookup of `_scan_recursive`
(`services/drive_template_service.py:117-128`): `category_map.get` on
the first dotted component, with default `"Other"` (the initial
`"General"` value is always overwritten by the `.get` call). -/
def categoryFor (code : String) : String :=
  let element_num := (splitDot code).headD ""
  if element_num == "0" then "Core Documents"
  else if element_num == "1" then "Management"
  else if element_num == "2" then "Safety Signs"
  else if element_num == "3" then "HSE Facilities"
  else if element_num == "4" then "Safety Committee"
  else if element_num == "5" then "Inspection"
  else if element_num == "6" then "Security"
  else "Other"

/-- Loop body of `_scan_recursive` over the folder children of one
node, threading the synthetic-code counter `folder_idx` (initially 1);
`scanChild` is the recursive scan applied to each child folder.  The
first component collects the task entries in source order (the entry
for a folder, then its subtree, then the following siblings); the
second collects the ids passed to `fetch_files_in_folder` by the
subtree scans. -/
def scanRecFolders (current_path : String)
    (scanChild : Nat → String → List TaskEntry × List Nat) :
    List DFile → Nat → List TaskEntry × List Nat
  | [], _ => ([], [])
  | f :: rest, folder_idx =>
    let sp := splitFirstSpace f.name
    let is_element_0 := strUpper current_path == "ELEMENT 0"
    let cti : String × String × Nat :=
      if is_element_0 && !hasDigitDot sp.1 then
        ("0." ++ toString folder_idx, f.name, folder_idx + 1)
      else (sp.1, sp.2, folder_idx)
    let here : List TaskEntry :=
      if hasDigitDot cti.1 then
        [⟨cti.1, if cti.2.1 == "" then cti.1 else strUpper cti.2.1, categoryFor cti.1⟩]
      else []
    let sub := scanChild f.id f.name
    let restR := scanRecFolders current_path scanChild rest cti.2.2
    (here ++ sub.1 ++ restR.1, sub.2 ++ restR.2)

/-- Embedding of `DriveTemplateService._scan_recursive`
(`services/drive_template_service.py:83-137`).  The Python recursion
has no depth limit and terminates only because the remote tree is
finite and acyclic; the embedding makes that explicit with a fuel
argument that callers choose larger than the tree depth (a scan never
exhausts fuel on inputs whose depth is below it).  Besides the task
list the embedding also returns the folder ids whose children the scan
listed, in call order, to count the remote listing calls. -/
def scan_recursive (svc : GDService) (st : DriveState) :
    Nat → Nat → String → List TaskEntry × List Nat
  | 0, _, _ => ([], [])
  | fuel + 1, folder_id, current_path =>
    if !svc.enabled then ([], [])
    else
      let all_items := fetch_files_in_folder svc st folder_id
      let folders := all_items.filter (·.isFolder)
      let r := scanRecFolders current_path
        (fun fid nm => scan_recursive svc st fuel fid nm) folders 1
      (r.1, folder_id :: r.2)

/-- Node of the nested structure built by `_scan_folder_structure`
(the `url` field is determined by the id and is not repeated here). -/
inductive TocNode where
  | mk (id : Nat) (name : String) (children : List TocNode)

/-- Name of a table-of-contents node. -/
def TocNode.name : TocNode → String
  | .mk _ n _ => n

/-- Children of a table-of-contents node. -/
def TocNode.children : TocNode → List TocNode
  | .mk _ _ c => c

/-- Sort of sibling folders used by `_scan_folder_structure`:
`folders.sort(key=lambda x: x.get('name', ''))`, a stable sort by the
plain (code-point lexicographic) name. -/
def sortByName (l : List DFile) : List DFile :=
  sortLe (fun a b => strLe a.name b.name) l

/-- Embedding of `DaftarIsiService._scan_folder_structure`
(`services/daftar_isi_service.py:101-149`): three structurally nested
listing loops (top level, sub level, sub-sub level), each filtering the
listing to folders and sorting the folders by name. -/
def scan_folder_structure (svc : GDService) (st : DriveState)
    (folder_id : Nat) : List TocNode :=
  let items := fetch_files_in_folder svc st folder_id
  let folders := sortByName (items.filter (·.isFolder))
  folders.map (fun f =>
    let sub_items := fetch_files_in_folder svc st f.id
    let sub_folders := sortByName (sub_items.filter (·.isFolder))
    TocNode.mk f.id f.name (sub_folders.map (fun s =>
      let ss_items := fetch_files_in_folder svc st s.id
      let ss_folders := sortByName (ss_items.filter (·.isFolder))
      TocNode.mk s.id s.name (ss_folders.map (fun t =>
        TocNode.mk t.id t.name [])))))

/-- Folder ids whose children `_scan_folder_structure` lists, in call
order: the root, each top-level folder, and each second-level folder;
third-level folders are rendered without a further listing call. -/
def scanTocFetched (svc : GDService) (st : DriveState) (folder_id : Nat) :
    List Nat :=
  let folders := sortByName ((fetch_files_in_folder svc st folder_id).filter (·.isFolder))
  folder_id :: folders.flatMap (fun f =>
    let subs := sortByName ((fetch_files_in_folder svc st f.id).filter (·.isFolder))
    f.id :: subs.map (·.id))

/-- Names of the table-of-contents entries in the order
`DaftarIsiService._generate_pdf` renders them
(`services/daftar_isi_service.py:170-184`): each top-level folder,
then its children, then their children, one paragraph per node. -/
def generate_pdf_entries (struct : List TocNode) : List String :=
  struct.flatMap (fun f =>
    f.name :: f.children.flatMap (fun c => c.name :: c.children.map (·.name)))

/-- Embedding of `DaftarIsiService._delete_existing_daftar_isi`
(`services/daftar_isi_service.py:198-208`): list the direct children of
the root and delete the first one named `DAFTAR ISI.pdf`, if any.  The
second component counts the deletions (0 or 1). -/
def delete_existing_daftar_isi (svc : GDService) (st : DriveState)
    (folder_id : Nat) : DriveState × Nat :=
  match (fetch_files_in_folder svc st folder_id).find?
      (fun f => f.name == "DAFTAR ISI.pdf") with
  | some doc =>
    ({ st with files := st.files.filter (fun f => !(f.id == doc.id)) }, 1)
  | none => (st, 0)

/-- Embedding of `DaftarIsiService._upload_pdf`
(`services/daftar_isi_service.py:210-237`): create a file named
`DAFTAR ISI.pdf` under the root and return its id (the upload is
modelled as succeeding; the PDF bytes are not modelled). -/
def upload_pdf (st : DriveState) (folder_id : Nat) : Option Nat × DriveState :=
  (some st.nextId,
   { st with
     files := st.files ++ [⟨st.nextId, "DAFTAR ISI.pdf", folder_id, false, false⟩],
     nextId := st.nextId + 1 })

/-- Embedding of `DaftarIsiService.generate_and_upload`
(`services/daftar_isi_service.py:62-99`): scan the root; on an empty
structure return `False` at once; otherwise render the PDF (a pure
step, see `generate_pdf_entries`), delete a stale `DAFTAR ISI.pdf` if
present, and upload the new one.  The result carries the returned
Boolean, the final Drive state, the number of deletions and the number
of uploads performed. -/
def generate_and_upload (svc : GDService) (st : DriveState)
    (project_folder_id : Nat) (_project_name : String) :
    Bool × DriveState × Nat × Nat :=
  if !svc.enabled then (false, st, 0, 0)
  else
    let struct := scan_folder_structure svc st project_folder_id
    if struct.isEmpty then (false, st, 0, 0)
    else
      let del := delete_existing_daftar_isi svc st project_folder_id
      let up := upload_pdf del.1 project_folder_id
      (up.1.isSome, up.2, del.2, 1)

/-- Drive states forming a single descending chain: node `i + 1` is the
only child of node `i`, and node `0` (the scan root, not itself stored
as a file) has depth 0.  `chainState n` has exactly one node at each
depth `1 .. n`. -/
def chainFiles : Nat → List DFile
  | 0 => []
  | n + 1 => chainFiles n ++ [⟨n + 1, "F", n, true, false⟩]

/-- Chain-shaped Drive state of depth `n` with no failing listings. -/
def chainState (n : Nat) : DriveState := ⟨chainFiles n, n + 2, []⟩

/-- An enabled service with root folder 0 and an empty cache. -/
def svcOn : GDService := ⟨true, 0, []⟩

/-- State transformation that realizes what a failing listing makes the
scanners observe: every child of a folder with a failing listing is
removed, and no listing fails any more.  Scanning a state is provably
identical to scanning its pruned state: a listing failure degrades the
failing node to a childless one. -/
def pruneFailed (st : DriveState) : DriveState :=
  ⟨st.files.filter (fun f => !(st.listFails.contains f.parent)), st.nextId, []⟩

/-- Well-formed Drive state: node ids are pairwise distinct and below
the fresh-id counter (every id the remote store hands out is new). -/
def DriveState.wf (st : DriveState) : Prop :=
  (st.files.map (·.id)).Nodup ∧ ∀ f ∈ st.files, f.id < st.nextId

instance (st : DriveState) : Decidable st.wf := by
  unfold DriveState.wf
  infer_instance

/-- Membership is preserved by stable insertion. -/
theorem mem_insertLe {α : Type} (le : α → α → Bool) (x a : α) :
    ∀ l : List α, a ∈ insertLe le x l ↔ a = x ∨ a ∈ l := by
  intro l
  induction l with
  | nil => simp [insertLe]
  | cons y ys ih =>
    simp only [insertLe]
    split
    · simp
    · simp only [List.mem_cons, ih]
      tauto

/-- Membership is preserved by the stable sort. -/
theorem mem_sortLe {α : Type} (le : α → α → Bool) (a : α) :
    ∀ l : List α, a ∈ sortLe le l ↔ a ∈ l := by
  intro l
  induction l with
  | nil => simp [sortLe]
  | cons x xs ih => simp [sortLe, mem_insertLe, ih]

/-- The files-list query of `find_or_create_folder` factors into the
parent/type/trash part followed by the name part. -/
theorem filter_folderQueryMatch (ps : Bool) (nm : String) (p : Nat)
    (l : List DFile) :
    l.filter (folderQueryMatch ps nm p) =
      (l.filter (fun f => f.parent == p && f.isFolder && !f.trashed)).filter
        (fun f => if ps then f.name == nm || strStartsWith (nm ++ " ") f.name
                  else f.name == nm) := by
  rw [List.filter_filter]
  apply List.filter_congr
  intro f _
  simp only [folderQueryMatch]
  cases hn : (if ps then f.name == nm || strStartsWith (nm ++ " ") f.name
              else f.name == nm) <;>
    cases f.parent == p <;> cases f.isFolder <;> cases f.trashed <;> simp_all

/-- In a well-formed state, nodes are determined by their ids. -/
theorem wf_id_inj {st : DriveState} (h : st.wf) {f g : DFile}
    (hf : f ∈ st.files) (hg : g ∈ st.files) (hid : f.id = g.id) : f = g :=
  List.inj_on_of_nodup_map h.1 hf hg hid

/-- The prefix-mode files-list query factors into the
parent/type/trash part followed by the name-or-prefix part. -/
theorem filter_folderQueryMatch_true (nm : String) (p : Nat) (l : List DFile) :
    l.filter (folderQueryMatch true nm p) =
      (l.filter (fun f => f.parent == p && f.isFolder && !f.trashed)).filter
        (fun f => f.name == nm || strStartsWith (nm ++ " ") f.name) := by
  rw [filter_folderQueryMatch]
  rfl

/-- C1 (amended): when the untrashed folder children of a parent are
exactly the folders named `2.1 HSE Committee Meeting` and `2.10 Other`
(in either listing order), resolving `2.1` with `prefix_search=True`
returns the id of `2.1 HSE Committee Meeting`; and for any well-formed
state whose files include a folder named `2.10 Other`, the resolution
never returns that folder's id.  The claim's original universal form —
any parent whose children merely include those two folders — fails
when a third matching child sorts first (see the counterexample). -/
theorem c1_amended (svc : GDService) (st : DriveState) (p : Nat) (H O : DFile)
    (hen : svc.enabled = true)
    (hf : p ∉ st.listFails)
    (hH : H.name = "2.1 HSE Committee Meeting")
    (hO : O.name = "2.10 Other") :
    ((st.files.filter (fun f => f.parent == p && f.isFolder && !f.trashed) = [H, O] ∨
      st.files.filter (fun f => f.parent == p && f.isFolder && !f.trashed) = [O, H]) →
      (find_or_create_folder svc st "2.1" (some p) true).1 = some H.id) ∧
    (st.wf → O ∈ st.files →
      (find_or_create_folder svc st "2.1" (some p) true).1 ≠ some O.id) := by
  constructor
  · intro hch
    have hq : st.files.filter (folderQueryMatch true "2.1" p) = [H] := by
      rw [filter_folderQueryMatch_true]
      rcases hch with h | h <;> rw [h] <;> simp +decide [List.filter_cons, hH, hO]
    simp +decide [find_or_create_folder, hen, hf, hq, sortLe, insertLe, hH]
  · intro hwf hOmem heq
    simp [find_or_create_folder, hen, hf] at heq
    split at heq
    next x best tail hsort =>
      simp at heq
      have hmem : best ∈ st.files.filter (folderQueryMatch true "2.1" p) := by
        rw [← mem_sortLe (sortKeyLe "2.1"), hsort]; exact List.mem_cons_self _ _
      rw [filter_folderQueryMatch_true] at hmem
      have hpred := (List.mem_filter.mp hmem).2
      have hmem' := (List.mem_filter.mp (List.mem_filter.mp hmem).1).1
      have hbo : best = O := wf_id_inj hwf hmem' hOmem heq
      rw [hbo, hO] at hpred
      exact absurd hpred (by decide)
    next x hsort =>
      simp at heq
      have := hwf.2 O hOmem
      omega

/-- C1 witness: both parts of `c1_amended` applied to the concrete
two-child state (ids 1 and 2 under parent 0). -/
theorem c1_witness :
    (find_or_create_folder svcOn
      ⟨[⟨1, "2.1 HSE Committee Meeting", 0, true, false⟩,
        ⟨2, "2.10 Other", 0, true, false⟩], 3, []⟩ "2.1" (some 0) true).1 =
        some 1 ∧
    (find_or_create_folder svcOn
      ⟨[⟨1, "2.1 HSE Committee Meeting", 0, true, false⟩,
        ⟨2, "2.10 Other", 0, true, false⟩], 3, []⟩ "2.1" (some 0) true).1 ≠
        some 2 :=
  ⟨(c1_amended svcOn _ 0 ⟨1, "2.1 HSE Committee Meeting", 0, true, false⟩
      ⟨2, "2.10 Other", 0, true, false⟩ rfl (by decide) rfl rfl).1
      (Or.inl (by decide)),
   (c1_amended svcOn _ 0 ⟨1, "2.1 HSE Committee Meeting", 0, true, false⟩
      ⟨2, "2.10 Other", 0, true, false⟩ rfl (by decide) rfl rfl).2
      (by decide) (by decide)⟩

/-- C1 counterexample: with children `2.1 Apple` (id 1),
`2.1 HSE Committee Meeting` (id 2) and `2.10 Other` (id 3) — a parent
whose children include the two folders named in the claim — resolving
`2.1` with `prefix_search=True` returns the id of `2.1 Apple`
(the lexicographically first prefix match), not the id of
`2.1 HSE Committee Meeting` as the claim requires. -/
theorem c1_cex :
    (⟨2, "2.1 HSE Committee Meeting", 0, true, false⟩ : DFile) ∈
      ([⟨1, "2.1 Apple", 0, true, false⟩,
        ⟨2, "2.1 HSE Committee Meeting", 0, true, false⟩,
        ⟨3, "2.10 Other", 0, true, false⟩] : List DFile) ∧
    (⟨3, "2.10 Other", 0, true, false⟩ : DFile) ∈
      ([⟨1, "2.1 Apple", 0, true, false⟩,
        ⟨2, "2.1 HSE Committee Meeting", 0, true, false⟩,
        ⟨3, "2.10 Other", 0, true, false⟩] : List DFile) ∧
    (find_or_create_folder svcOn
      ⟨[⟨1, "2.1 Apple", 0, true, false⟩,
        ⟨2, "2.1 HSE Committee Meeting", 0, true, false⟩,
        ⟨3, "2.10 Other", 0, true, false⟩], 4, []⟩ "2.1" (some 0) true).1 =
      some 1 ∧
    some (1 : Nat) ≠ some (2 : Nat) := by
  decide

/-- C4 (amended): a `prefix_search=True` call of
`find_or_create_folder` leaves `folders_cache` unchanged exactly when
it resolves to an existing child whose name differs from the requested
name (a suffixed match).  When the best match is named exactly
`folder_name`, and likewise when no match is found and a folder is
created, the code does write the cache entry
`(parent, folder_name) ↦ returned id` — contrary to the claim that a
prefix-mode call never writes the cache. -/
theorem c4_amended (svc : GDService) (st : DriveState) (nm : String) (p : Nat)
    (hen : svc.enabled = true) (hf : p ∉ st.listFails) :
    (∀ best tail,
      sortLe (sortKeyLe nm) (st.files.filter (folderQueryMatch true nm p)) =
        best :: tail →
      (best.name ≠ nm →
        (find_or_create_folder svc st nm (some p) true).2.1.folders_cache =
          svc.folders_cache) ∧
      (best.name = nm →
        (find_or_create_folder svc st nm (some p) true).2.1.folders_cache =
          cacheSet svc.folders_cache (p, nm) best.id)) ∧
    (sortLe (sortKeyLe nm) (st.files.filter (folderQueryMatch true nm p)) = [] →
      (find_or_create_folder svc st nm (some p) true).2.1.folders_cache =
        cacheSet svc.folders_cache (p, nm) st.nextId) := by
  constructor
  · intro best tail hsort
    constructor <;> intro hb <;>
      simp [find_or_create_folder, hen, hf, hsort, hb]
  · intro hsort
    simp [find_or_create_folder, hen, hf, hsort]

/-- C4 witness: `c4_amended` applied to a suffixed-match state (the
cache stays empty) and to a fresh state where the folder is created
(the cache gains the new entry). -/
theorem c4_witness :
    (find_or_create_folder svcOn ⟨[⟨1, "2.1 HSE", 0, true, false⟩], 2, []⟩
      "2.1" (some 0) true).2.1.folders_cache = svcOn.folders_cache ∧
    (find_or_create_folder svcOn ⟨[], 1, []⟩
      "X" (some 0) true).2.1.folders_cache = cacheSet svcOn.folders_cache (0, "X") 1 :=
  ⟨((c4_amended svcOn ⟨[⟨1, "2.1 HSE", 0, true, false⟩], 2, []⟩ "2.1" 0 rfl
      (by decide)).1 ⟨1, "2.1 HSE", 0, true, false⟩ [] (by decide)).1 (by decide),
   (c4_amended svcOn ⟨[], 1, []⟩ "X" 0 rfl (by decide)).2 (by decide)⟩

/-- C4 counterexample: two `prefix_search=True` calls that do change
`folders_cache`, contradicting the claim that it is always unchanged:
creating a missing folder writes the new entry, and resolving an
exactly-named existing child writes its entry. -/
theorem c4_cex :
    (find_or_create_folder svcOn ⟨[], 1, []⟩ "X" (some 0) true).2.1.folders_cache =
      [((0, "X"), 1)] ∧
    (find_or_create_folder svcOn ⟨[⟨1, "X", 0, true, false⟩], 2, []⟩
      "X" (some 0) true).2.1.folders_cache = [((0, "X"), 1)] ∧
    ([((0, "X"), 1)] : List ((Nat × String) × Nat)) ≠ svcOn.folders_cache := by
  decide

/-- C2 (amended): expanding code `4.3.2.2.1` with title
`Foto Observation Card` on a fresh store resolves, under the project
folder, exactly the five segments `Element 4`, `4.3`, `4.3.2`,
`4.3.2.2` (the middle three with `prefix_search=True`) and finally
`4.3.2.2.1 Foto Observation Card` — the code concatenated with the
sanitized title, which keeps its case and spaces — creating each in
order as a child of the previous one. -/
theorem c2_amended :
    segmentSpecs "4.3.2.2.1" "Foto Observation Card" =
      [("4.3", true), ("4.3.2", true), ("4.3.2.2", true),
       ("4.3.2.2.1 Foto Observation Card", false)] ∧
    (create_nested_task_folder svcOn ⟨[], 1, []⟩ "ProjectX" "4.3.2.2.1"
      "Foto Observation Card").1 = some 6 ∧
    (create_nested_task_folder svcOn ⟨[], 1, []⟩ "ProjectX" "4.3.2.2.1"
      "Foto Observation Card").2.2.files.map (fun f => (f.name, f.parent)) =
      [("ProjectX", 0), ("Element 4", 1), ("4.3", 2), ("4.3.2", 3),
       ("4.3.2.2", 4), ("4.3.2.2.1 Foto Observation Card", 5)] := by
  decide

/-- C2 counterexample: with title `Foto Observation Card` the final
segment is `4.3.2.2.1 Foto Observation Card` — the sanitizer keeps
alphanumerics, `._- ` and does not upper-case or underscore — so no
folder named `4.3.2.2.1 FOTO_OBSERVATION_CARD` is ever resolved or
created, contradicting the final-segment name given by the claim. -/
theorem c2_cex :
    (segmentSpecs "4.3.2.2.1" "Foto Observation Card").map Prod.fst =
      ["4.3", "4.3.2", "4.3.2.2", "4.3.2.2.1 Foto Observation Card"] ∧
    (["4.3", "4.3.2", "4.3.2.2", "4.3.2.2.1 Foto Observation Card"] :
      List String) ≠ ["4.3", "4.3.2", "4.3.2.2", "4.3.2.2.1 FOTO_OBSERVATION_CARD"] ∧
    ((create_nested_task_folder svcOn ⟨[], 1, []⟩ "ProjectX" "4.3.2.2.1"
        "Foto Observation Card").2.2.files.map (·.name)).contains
      "4.3.2.2.1 FOTO_OBSERVATION_CARD" = false := by
  decide

/-- C3 (amended): `_scan_folder_structure` sorts sibling folders by
their plain (code-point lexicographic) full name, so the rendered
table of contents lists `1.1 A`, `1.10 B`, `1.2 C` in that order —
`1.10` before `1.2`, because the sort is not numeric-aware. -/
theorem c3_amended :
    generate_pdf_entries (scan_folder_structure svcOn
      ⟨[⟨1, "1.1 A", 0, true, false⟩, ⟨2, "1.10 B", 0, true, false⟩,
        ⟨3, "1.2 C", 0, true, false⟩], 4, []⟩ 0) =
      ["1.1 A", "1.10 B", "1.2 C"] := by
  decide

/-- C3 counterexample: the rendered order for sibling folders
`1.1 A`, `1.10 B`, `1.2 C` is `1.1, 1.10, 1.2`, not the numeric-aware
`1.1, 1.2, 1.10` required by the claim. -/
theorem c3_cex :
    generate_pdf_entries (scan_folder_structure svcOn
      ⟨[⟨1, "1.1 A", 0, true, false⟩, ⟨2, "1.10 B", 0, true, false⟩,
        ⟨3, "1.2 C", 0, true, false⟩], 4, []⟩ 0) ≠
      ["1.1 A", "1.2 C", "1.10 B"] := by
  decide

/-- C5 (amended): the final path segment of code-to-path expansion is
resolved with `prefix_search=False` (exact name): for code
`4.3.2.2.1` and any title, the per-segment flags are
`[true, true, true, false]`.  Consequently a previously created final
folder that carries a title suffix from an earlier upload under the
same code is not found by a later bare-code upload: a second folder
with the bare final name is created beside it. -/
theorem c5_amended (title : String) :
    (segmentSpecs "4.3.2.2.1" title).map (·.2) = [true, true, true, false] ∧
    (segmentSpecs "1.1" title).map (·.2) = [false] := by
  constructor <;>
    · simp only [segmentSpecs, List.map_map, Function.comp_def, apply_ite Prod.snd]
      decide

/-- C5 counterexample: under `P/Element 1` a folder
`1.1 TITLE` (id 3) already exists from an earlier titled upload of
code `1.1`.  A later upload of the same code without a title resolves
the final segment `1.1` exactly (`segmentSpecs` flag `false`, not
`true` as claimed), misses the suffixed folder, and creates a new
folder `1.1` (id 4) beside it instead of returning id 3. -/
theorem c5_cex :
    segmentSpecs "1.1" "" = [("1.1", false)] ∧
    (create_nested_task_folder svcOn
      ⟨[⟨1, "P", 0, true, false⟩, ⟨2, "Element 1", 1, true, false⟩,
        ⟨3, "1.1 TITLE", 2, true, false⟩], 4, []⟩ "P" "1.1" "").1 = some 4 ∧
    some (4 : Nat) ≠ some (3 : Nat) ∧
    (create_nested_task_folder svcOn
      ⟨[⟨1, "P", 0, true, false⟩, ⟨2, "Element 1", 1, true, false⟩,
        ⟨3, "1.1 TITLE", 2, true, false⟩], 4, []⟩ "P" "1.1" "").2.2.files.map
      (fun f => (f.id, f.name, f.parent)) =
      [(1, "P", 0), (2, "Element 1", 1), (3, "1.1 TITLE", 2), (4, "1.1", 2)] := by
  decide

/-- C9 (confirmed): every public `GoogleDriveService` operation called
while the service is not enabled returns its sentinel value without
touching the service state, the cache or the remote store: `None` for
the id-returning operations (`find_or_create_folder`,
`create_nested_task_folder`, `copy_file`), the empty list for the
listing operations (`fetch_files_in_folder`, `get_files_in_project`),
and a `success=False` dictionary with an error message for
`upload_file_to_drive`. -/
theorem c9_disabled_sentinels (svc : GDService) (st : DriveState)
    (h : svc.enabled = false) (nm pn fn tt : String) (pid fid p2 : Nat)
    (pa : Option Nat) (tc : Option String) (nn : Option String)
    (ps skip : Bool) :
    find_or_create_folder svc st nm pa ps = (none, svc, st) ∧
    create_nested_task_folder svc st pn nm tt = (none, svc, st) ∧
    copy_file svc st fid p2 nn skip = (none, st) ∧
    fetch_files_in_folder svc st pid = [] ∧
    get_files_in_project svc st pn = ([], svc, st) ∧
    upload_file_to_drive svc st fn pn tc tt =
      (⟨false, none, none, none,
        some "Google Drive service not enabled or not initialized"⟩, svc, st) := by
  refine ⟨?_, ?_, ?_, ?_, ?_, ?_⟩ <;>
    simp [find_or_create_folder, create_nested_task_folder, copy_file,
      fetch_files_in_folder, get_files_in_project, upload_file_to_drive, h]

/-- C9 witness: the sentinels at a concrete disabled service and a
concrete one-file store. -/
theorem c9_witness :
    find_or_create_folder ⟨false, 0, []⟩ ⟨[⟨1, "A", 0, true, false⟩], 2, []⟩
      "N" none false =
      (none, ⟨false, 0, []⟩, ⟨[⟨1, "A", 0, true, false⟩], 2, []⟩) ∧
    create_nested_task_folder ⟨false, 0, []⟩ ⟨[⟨1, "A", 0, true, false⟩], 2, []⟩
      "P" "1.1" "T" =
      (none, ⟨false, 0, []⟩, ⟨[⟨1, "A", 0, true, false⟩], 2, []⟩) ∧
    copy_file ⟨false, 0, []⟩ ⟨[⟨1, "A", 0, true, false⟩], 2, []⟩ 1 0 none false =
      (none, ⟨[⟨1, "A", 0, true, false⟩], 2, []⟩) ∧
    fetch_files_in_folder ⟨false, 0, []⟩ ⟨[⟨1, "A", 0, true, false⟩], 2, []⟩ 0 = [] ∧
    get_files_in_project ⟨false, 0, []⟩ ⟨[⟨1, "A", 0, true, false⟩], 2, []⟩ "P" =
      ([], ⟨false, 0, []⟩, ⟨[⟨1, "A", 0, true, false⟩], 2, []⟩) ∧
    upload_file_to_drive ⟨false, 0, []⟩ ⟨[⟨1, "A", 0, true, false⟩], 2, []⟩
      "f.pdf" "P" (some "1.1") "T" =
      (⟨false, none, none, none,
        some "Google Drive service not enabled or not initialized"⟩,
       ⟨false, 0, []⟩, ⟨[⟨1, "A", 0, true, false⟩], 2, []⟩) :=
  c9_disabled_sentinels ⟨false, 0, []⟩ ⟨[⟨1, "A", 0, true, false⟩], 2, []⟩ rfl
    "N" "P" "f.pdf" "T" 0 1 0 none (some "1.1") none false false

/-- C10 (confirmed): when the table-of-contents scan of the project
root yields no subfolders, `generate_and_upload` returns `False` and
performs neither a deletion nor an upload — the store is returned
unchanged with zero deletions and zero uploads. -/
theorem c10_empty_short_circuit (svc : GDService) (st : DriveState)
    (pfid : Nat) (pn : String)
    (hempty : (scan_folder_structure svc st pfid).isEmpty = true) :
    generate_and_upload svc st pfid pn = (false, st, 0, 0) := by
  by_cases h : svc.enabled <;>
    simp [generate_and_upload, h, hempty]

/-- C10 witness: the short-circuit on a concrete empty store. -/
theorem c10_witness :
    generate_and_upload svcOn ⟨[], 1, []⟩ 0 "P" = (false, ⟨[], 1, []⟩, 0, 0) :=
  c10_empty_short_circuit svcOn ⟨[], 1, []⟩ 0 "P" (by decide)

/-- C8 (confirmed): when regeneration proceeds (the scan found a
non-empty structure), exactly one node — the first direct child named
`DAFTAR ISI.pdf` — is deleted before the new document is uploaded, and
exactly one upload occurs; when no such child exists, zero deletions
and one upload occur.  The final file list is stated explicitly: the
old document removed (when present) and the fresh document appended. -/
theorem c8_delete_upload_counts (svc : GDService) (st : DriveState)
    (pfid : Nat) (pn : String) (hen : svc.enabled = true)
    (hne : (scan_folder_structure svc st pfid).isEmpty = false) :
    (∀ doc, (fetch_files_in_folder svc st pfid).find?
        (fun f => f.name == "DAFTAR ISI.pdf") = some doc →
      (generate_and_upload svc st pfid pn).2.2.1 = 1 ∧
      (generate_and_upload svc st pfid pn).2.2.2 = 1 ∧
      (generate_and_upload svc st pfid pn).1 = true ∧
      (generate_and_upload svc st pfid pn).2.1.files =
        st.files.filter (fun f => !(f.id == doc.id)) ++
          [⟨st.nextId, "DAFTAR ISI.pdf", pfid, false, false⟩]) ∧
    ((fetch_files_in_folder svc st pfid).find?
        (fun f => f.name == "DAFTAR ISI.pdf") = none →
      (generate_and_upload svc st pfid pn).2.2.1 = 0 ∧
      (generate_and_upload svc st pfid pn).2.2.2 = 1 ∧
      (generate_and_upload svc st pfid pn).1 = true ∧
      (generate_and_upload svc st pfid pn).2.1.files =
        st.files ++ [⟨st.nextId, "DAFTAR ISI.pdf", pfid, false, false⟩]) := by
  constructor
  · intro doc hdoc
    simp [generate_and_upload, hen, hne, delete_existing_daftar_isi, hdoc, upload_pdf]
  · intro hdoc
    simp [generate_and_upload, hen, hne, delete_existing_daftar_isi, hdoc, upload_pdf]

/-- C8 witness: both branches of `c8_delete_upload_counts` at concrete
stores — one with a stale `DAFTAR ISI.pdf` (id 2; one deletion, one
upload) and one without (zero deletions, one upload). -/
theorem c8_witness :
    ((generate_and_upload svcOn
        ⟨[⟨1, "1 El", 0, true, false⟩, ⟨2, "DAFTAR ISI.pdf", 0, false, false⟩],
         3, []⟩ 0 "P").2.2.1 = 1 ∧
     (generate_and_upload svcOn
        ⟨[⟨1, "1 El", 0, true, false⟩, ⟨2, "DAFTAR ISI.pdf", 0, false, false⟩],
         3, []⟩ 0 "P").2.2.2 = 1) ∧
    ((generate_and_upload svcOn ⟨[⟨1, "1 El", 0, true, false⟩], 2, []⟩
        0 "P").2.2.1 = 0 ∧
     (generate_and_upload svcOn ⟨[⟨1, "1 El", 0, true, false⟩], 2, []⟩
        0 "P").2.2.2 = 1) :=
  ⟨⟨(((c8_delete_upload_counts svcOn
        ⟨[⟨1, "1 El", 0, true, false⟩, ⟨2, "DAFTAR ISI.pdf", 0, false, false⟩],
         3, []⟩ 0 "P" rfl (by decide)).1
        ⟨2, "DAFTAR ISI.pdf", 0, false, false⟩ (by decide))).1,
     (((c8_delete_upload_counts svcOn
        ⟨[⟨1, "1 El", 0, true, false⟩, ⟨2, "DAFTAR ISI.pdf", 0, false, false⟩],
         3, []⟩ 0 "P" rfl (by decide)).1
        ⟨2, "DAFTAR ISI.pdf", 0, false, false⟩ (by decide))).2.1⟩,
   ⟨((c8_delete_upload_counts svcOn ⟨[⟨1, "1 El", 0, true, false⟩], 2, []⟩
        0 "P" rfl (by decide)).2 (by decide)).1,
    ((c8_delete_upload_counts svcOn ⟨[⟨1, "1 El", 0, true, false⟩], 2, []⟩
        0 "P" rfl (by decide)).2 (by decide)).2.1⟩⟩

/-- A listing that fails is observed as an empty child list, and the
whole store behaves, for every listing, as if the children of failing
folders were absent. -/
theorem fetch_pruneFailed (svc : GDService) (st : DriveState) (fid : Nat) :
    fetch_files_in_folder svc (pruneFailed st) fid =
      fetch_files_in_folder svc st fid := by
  by_cases he : svc.enabled
  · simp only [fetch_files_in_folder, pruneFailed, he, Bool.not_true,
      Bool.false_eq_true, if_false, List.contains_nil]
    by_cases hc : st.listFails.contains fid
    · simp only [hc, if_true, if_false]
      rw [List.filter_filter, List.filter_eq_nil_iff]
      intro f _ hp
      simp only [Bool.and_eq_true, beq_iff_eq, Bool.not_eq_true'] at hp
      rcases hp with ⟨⟨hpar, _⟩, hkeep⟩
      rw [hpar] at hkeep
      rw [hc] at hkeep
      exact absurd hkeep (by decide)
    · simp only [hc, if_false]
      rw [List.filter_filter]
      apply List.filter_congr
      intro f _
      by_cases hp : f.parent = fid
      · rw [hp]
        simp [hc]
        intro _
        simpa using hc
      · have : (f.parent == fid) = false := by simp [hp]
        simp [this]
  · simp [fetch_files_in_folder, he]

/-- The scan loop depends on the store only through the child-scanning
function it is given. -/
theorem scanRecFolders_congr (path : String)
    (g₁ g₂ : Nat → String → List TaskEntry × List Nat)
    (h : ∀ a b, g₁ a b = g₂ a b) :
    ∀ (l : List DFile) (idx : Nat),
      scanRecFolders path g₁ l idx = scanRecFolders path g₂ l idx := by
  intro l
  induction l with
  | nil => intro idx; rfl
  | cons f rest ih =>
    intro idx
    simp only [scanRecFolders, h, ih]

/-- C7 (confirmed): a failing child-listing call degrades that node to
a childless one and never aborts the scan.  First part: a folder whose
listing fails yields the empty child list from
`fetch_files_in_folder`.  Second part: the code-extraction scan of a
store with failing listings equals, at every root, every fuel and
every path, the scan of the pruned store in which each failing node
simply has no children and nothing fails — so the failure is absorbed
locally and the scan always completes with a result. -/
theorem c7_failure_degrades_to_childless (svc : GDService) (st : DriveState) :
    (∀ fid, st.listFails.contains fid = true →
      fetch_files_in_folder svc st fid = []) ∧
    (∀ fuel fid path,
      scan_recursive svc st fuel fid path =
        scan_recursive svc (pruneFailed st) fuel fid path) := by
  constructor
  · intro fid hc
    by_cases he : svc.enabled <;> simp [fetch_files_in_folder, he, hc]
    intro hnot
    exact absurd (by simpa using hc) hnot
  · intro fuel
    induction fuel with
    | zero => intro fid path; rfl
    | succ n ih =>
      intro fid path
      simp only [scan_recursive, fetch_pruneFailed]
      rw [scanRecFolders_congr path
        (fun a b => scan_recursive svc st n a b)
        (fun a b => scan_recursive svc (pruneFailed st) n a b)
        (fun a b => ih a b)]

/-- C7 witness: a store whose root listing fails yields no children,
and a scan over a store with a failing node equals the scan of the
pruned store, at concrete inputs. -/
theorem c7_witness :
    fetch_files_in_folder svcOn ⟨[⟨1, "1.1 X", 0, true, false⟩], 2, [0]⟩ 0 = [] ∧
    scan_recursive svcOn ⟨[⟨1, "1.1 X", 0, true, false⟩], 2, [1]⟩ 5 0 "" =
      scan_recursive svcOn
        (pruneFailed ⟨[⟨1, "1.1 X", 0, true, false⟩], 2, [1]⟩) 5 0 "" :=
  ⟨(c7_failure_degrades_to_childless svcOn
      ⟨[⟨1, "1.1 X", 0, true, false⟩], 2, [0]⟩).1 0 (by decide),
   (c7_failure_degrades_to_childless svcOn
      ⟨[⟨1, "1.1 X", 0, true, false⟩], 2, [1]⟩).2 5 0 ""⟩

/-- The enabled service used in concrete runs is enabled. -/
theorem svcOn_enabled : svcOn.enabled = true := rfl

/-- Children in a chain store: node `k` has the single child `k + 1`
when `k < n`, and no children otherwise. -/
theorem chain_filter (n k : Nat) :
    (chainFiles n).filter (fun f => f.parent == k && !f.trashed) =
      if k < n then [⟨k + 1, "F", k, true, false⟩] else [] := by
  induction n with
  | zero => simp [chainFiles]
  | succ m ih =>
    rw [chainFiles, List.filter_append, ih]
    by_cases hk : k < m
    · have h1 : k < m + 1 := by omega
      have h2 : (m == k) = false := by simp; omega
      simp [hk, h1, h2]
    · by_cases he : k = m
      · have h1 : k < m + 1 := by omega
        have h2 : (m == k) = true := by simp [he]
        simp [hk, h1, h2, he]
      · have h1 : ¬ (k < m + 1) := by omega
        have h2 : (m == k) = false := by simp; omega
        simp [hk, h1, h2]

/-- Listing children in a chain store. -/
theorem chain_fetch (n k : Nat) :
    fetch_files_in_folder svcOn (chainState n) k =
      if k < n then [⟨k + 1, "F", k, true, false⟩] else [] := by
  simp only [fetch_files_in_folder, chainState, svcOn_enabled, Bool.not_true,
    Bool.false_eq_true, if_false, List.contains_nil]
  exact chain_filter n k

/-- On the depth-`n` chain, the code-extraction scan started at node
`k` with sufficient fuel lists the children of every node
`k, k+1, …, n`: its recursion depth tracks the full depth of the
tree. -/
theorem chain_scanRec (n : Nat) :
    ∀ (fuel k : Nat) (path : String), k ≤ n → n < k + fuel →
      (scan_recursive svcOn (chainState n) fuel k path).2 =
        List.range' k (n - k + 1) := by
  intro fuel
  induction fuel with
  | zero => intro k path hk hlt; omega
  | succ m ih =>
    intro k path hk hlt
    simp only [scan_recursive, svcOn_enabled, Bool.not_true, Bool.false_eq_true,
      if_false, chain_fetch]
    by_cases hkn : k < n
    · simp only [hkn, if_true, List.filter_cons, List.filter_nil]
      simp only [scanRecFolders]
      have hsub := ih (k + 1) "F" (by omega) (by omega)
      simp only [hsub]
      have : n - (k + 1) + 1 = n - k := by omega
      rw [this, List.append_nil, List.range'_succ]
    · have hke : k = n := by omega
      simp [hkn, scanRecFolders, hke, List.range'_succ]

/-- On the depth-`n` chain, the table-of-contents scan lists only the
root, the depth-1 node and the depth-2 node: at most three levels,
however deep the chain. -/
theorem chain_scanToc (n : Nat) :
    (scanTocFetched svcOn (chainState n) 0).length = min (n + 1) 3 := by
  match n with
  | 0 => decide
  | 1 => decide
  | (m + 2) =>
    have h0 : 0 < m + 2 := by omega
    have h1 : 0 + 1 < m + 2 := by omega
    simp only [scanTocFetched, chain_fetch, h0, h1, if_true, List.filter_cons,
      List.filter_nil, sortByName, sortLe, insertLe, List.flatMap_cons,
      List.flatMap_nil]
    simp [h1]

/-- C6 (amended): only the table-of-contents scan bounds its depth.
On the chain of depth `n`, `_scan_folder_structure` makes
`min (n + 1) 3` listing calls (three levels at most), while
`_scan_recursive` makes `n + 1` listing calls — one per node, with no
depth bound, so its remote-call count grows without bound in the tree
depth.  The claim that both scanners bound their recursion depth fails
for `_scan_recursive`. -/
theorem c6_amended (n fuel : Nat) (path : String) (h : n < fuel) :
    ((scan_recursive svcOn (chainState n) fuel 0 path).2).length = n + 1 ∧
    (scanTocFetched svcOn (chainState n) 0).length = min (n + 1) 3 := by
  constructor
  · rw [chain_scanRec n fuel 0 path (by omega) (by omega)]
    simp
  · exact chain_scanToc n

/-- C6 witness: the listing-call counts of both scanners on the
depth-6 chain. -/
theorem c6_witness :
    ((scan_recursive svcOn (chainState 6) 100 0 "").2).length = 6 + 1 ∧
    (scanTocFetched svcOn (chainState 6) 0).length = min (6 + 1) 3 :=
  c6_amended 6 100 "" (by decide)

/-- C6 counterexample: on the depth-6 chain the code-extraction scan
lists the children of every node down to depth 6 — in particular of
the node at depth 6 — so its recursion is not bounded to 3 (or any
fixed number of) levels; the table-of-contents scan of the same store
stops at `[0, 1, 2]`. -/
theorem c6_cex :
    (scan_recursive svcOn (chainState 6) 100 0 "").2 = [0, 1, 2, 3, 4, 5, 6] ∧
    (6 : Nat) ∈ (scan_recursive svcOn (chainState 6) 100 0 "").2 ∧
    scanTocFetched svcOn (chainState 6) 0 = [0, 1, 2] := by
  decide
